import Mathlib

/-!
Verification of `src/inspect_ai/_view/www/src/samples/SampleList.mjs`.

The component is shallowly embedded: JS numbers used for layout arithmetic
become `ℚ` (the layout claims are about exact arithmetic identities, not
float rounding), optional JS values become `Option`, JS truthiness is made
explicit, and the rendered output of each component is captured as a plain
Lean data structure recording exactly the data the markup displays.
-/

namespace SampleListSpec

/-- Truthiness of an optional JS string value: `undefined` and `""` are falsy,
every non-empty string is truthy. -/
def jsTruthyStr : Option String → Bool
  | none => false
  | some s => !s.isEmpty

/-- A sample summary as consumed by `SampleRow`: identifier, input text,
target text, an optional error message and an optional limit indicator. -/
structure SampleSummary where
  id : String
  input : String
  target : String
  error : Option String
  limit : Option String
deriving DecidableEq

/-- Modelled from the spec: `inputString` lives in `utils/Format.mjs`, which is
outside this repository slice; the spec only says a summary carries "input
text", so the formatter (followed by the `.join(" ")` in `SampleRow`) is
modelled as the identity on that text. -/
def inputString (s : String) : String := s

/-- Modelled from the spec: `arrayToString` lives in `utils/Format.mjs`, which
is outside this repository slice; the spec only says a summary carries "target
text", so the formatter is modelled as the identity on that text. -/
def arrayToString (s : String) : String := s

/-- The dynamic `data` field of a list item: a sample summary for `"sample"`
entries, a plain string (the group heading) for `"separator"` entries. -/
inductive ItemData where
  | sample (summary : SampleSummary)
  | title (text : String)
deriving DecidableEq

/-- JS truthiness of `item.data.error`: reading `.error` off a string yields
`undefined`, which is falsy. -/
def ItemData.errorTruthy : ItemData → Bool
  | .sample s => jsTruthyStr s.error
  | .title _ => false

/-- JS truthiness of `item.data.limit`: reading `.limit` off a string yields
`undefined`, which is falsy. -/
def ItemData.limitTruthy : ItemData → Bool
  | .sample s => jsTruthyStr s.limit
  | .title _ => false

/-- A list item (`ListItem` of `SamplesTab.mjs`): a `type` tag, the group or
sample `number`, the sample display `index` (meaningful for `"sample"`
entries) and the dynamic `data` payload. -/
structure ListItem where
  type : String
  number : Nat
  index : Nat
  data : ItemData
deriving DecidableEq

/-- `const kSampleHeight = 88`. -/
def kSampleHeight : Nat := 88

/-- `const kSeparatorHeight = 24`. -/
def kSeparatorHeight : Nat := 24

/-- The normalized proportional widths supplied by the descriptor
(`messageShape.normalized`). -/
structure NormalizedShape where
  input : ℚ
  target : ℚ
  answer : ℚ
  limit : ℚ
deriving DecidableEq

/-- The raw sizing hints supplied by the descriptor (`messageShape.raw`). -/
structure RawShape where
  id : ℚ
  score : ℚ
deriving DecidableEq

/-- `messageShape` of a samples descriptor. -/
structure MessageShape where
  normalized : NormalizedShape
  raw : RawShape
deriving DecidableEq

/-- The samples descriptor: the layout shape plus the externally supplied
scoring functions (`selectedScore(sample).render()` and
`selectedScorerDescriptor(sample).answer()`), which are opaque collaborators
and therefore modelled as function fields. -/
structure SamplesDescriptor where
  messageShape : MessageShape
  selectedScoreRender : SampleSummary → String
  scorerAnswer : SampleSummary → String

/-- The `input` binding of `gridColumns`:
`sampleDescriptor?.messageShape.normalized.input > 0 ? Math.max(0.15, …) : 0`
(`undefined > 0` is false, so an absent descriptor yields 0). -/
def gcInput : Option SamplesDescriptor → ℚ
  | some d =>
    if 0 < d.messageShape.normalized.input then
      max (3 / 20) d.messageShape.normalized.input
    else 0
  | none => 0

/-- The `target` binding of `gridColumns`. -/
def gcTarget : Option SamplesDescriptor → ℚ
  | some d =>
    if 0 < d.messageShape.normalized.target then
      max (3 / 20) d.messageShape.normalized.target
    else 0
  | none => 0

/-- The `answer` binding of `gridColumns`. -/
def gcAnswer : Option SamplesDescriptor → ℚ
  | some d =>
    if 0 < d.messageShape.normalized.answer then
      max (3 / 20) d.messageShape.normalized.answer
    else 0
  | none => 0

/-- The `limit` binding of `gridColumns`. -/
def gcLimit : Option SamplesDescriptor → ℚ
  | some d =>
    if 0 < d.messageShape.normalized.limit then
      max (3 / 20) d.messageShape.normalized.limit
    else 0
  | none => 0

/-- `Math.min` lifted to possibly-undefined operands: `Math.min(x, undefined)`
is `NaN`, modelled as `none`. -/
def jsMinQ : Option ℚ → Option ℚ → Option ℚ
  | some a, some b => some (min a b)
  | _, _ => none

/-- `Math.max` lifted to possibly-undefined operands: `Math.max(x, NaN)`
is `NaN`, modelled as `none`. -/
def jsMaxQ : Option ℚ → Option ℚ → Option ℚ
  | some a, some b => some (max a b)
  | _, _ => none

/-- The `id` binding of `gridColumns`:
`Math.max(2, Math.min(10, sampleDescriptor?.messageShape.raw.id))`. -/
def gcId (od : Option SamplesDescriptor) : Option ℚ :=
  jsMaxQ (some 2) (jsMinQ (some 10) (od.map (fun d => d.messageShape.raw.id)))

/-- The `score` binding of `gridColumns`:
`Math.max(3, Math.min(10, sampleDescriptor?.messageShape.raw.score))`. -/
def gcScore (od : Option SamplesDescriptor) : Option ℚ :=
  jsMaxQ (some 3) (jsMinQ (some 10) (od.map (fun d => d.messageShape.raw.score)))

/-- `frSize`: `0` maps to the string `"0"`, anything else to `"${val}fr"`. -/
def frSize (val : ℚ) : String :=
  if val = 0 then "0" else toString val ++ "fr"

/-- Rendering of a possibly-NaN rem width: `` `${id}rem` `` (a NaN prints as
`"NaN"`). -/
def remString : Option ℚ → String
  | some q => toString q ++ "rem"
  | none => "NaNrem"

/-- The record returned by `gridColumns`. -/
structure GridColumns where
  input : String
  target : String
  answer : String
  limit : String
  id : String
  score : String
deriving DecidableEq

/-- `gridColumns(sampleDescriptor)`. -/
def gridColumns (od : Option SamplesDescriptor) : GridColumns :=
  { input := frSize (gcInput od)
    target := frSize (gcTarget od)
    answer := frSize (gcAnswer od)
    limit := frSize (gcLimit od)
    id := remString (gcId od)
    score := remString (gcScore od) }

/-- The four proportionally sized columns, used to quantify over "any two of
the input, target, answer and limit columns". -/
inductive Col4 where
  | input
  | target
  | answer
  | limit
deriving DecidableEq

/-- Header label text of a proportional column. -/
def Col4.label : Col4 → String
  | .input => "Input"
  | .target => "Target"
  | .answer => "Answer"
  | .limit => "Limit"

/-- Projection of a normalized shape at a proportional column. -/
def NormalizedShape.col (n : NormalizedShape) : Col4 → ℚ
  | .input => n.input
  | .target => n.target
  | .answer => n.answer
  | .limit => n.limit

/-- The numeric fr width of a proportional column. -/
def gcCol (od : Option SamplesDescriptor) : Col4 → ℚ
  | .input => gcInput od
  | .target => gcTarget od
  | .answer => gcAnswer od
  | .limit => gcLimit od

/-- Projection of the `gridColumns` record at a proportional column. -/
def GridColumns.col (g : GridColumns) : Col4 → String
  | .input => g.input
  | .target => g.target
  | .answer => g.answer
  | .limit => g.limit

/-- The six header cells of `headerRow` (their text content). -/
structure HeaderRowView where
  idLabel : String
  inputLabel : String
  targetLabel : String
  answerLabel : String
  limitLabel : String
  scoreLabel : String
deriving DecidableEq

/-- The `headerRow` markup: the Input/Target/Answer/Limit labels are blanked
exactly when the corresponding destructured `gridColumns` width is `"0"`. -/
def headerRow (od : Option SamplesDescriptor) : HeaderRowView :=
  { idLabel := "Id"
    inputLabel := if (gridColumns od).input ≠ "0" then "Input" else ""
    targetLabel := if (gridColumns od).target ≠ "0" then "Target" else ""
    answerLabel := if (gridColumns od).answer ≠ "0" then "Answer" else ""
    limitLabel := if (gridColumns od).limit ≠ "0" then "Limit" else ""
    scoreLabel := "Score" }

/-- Projection of the header labels at a proportional column. -/
def HeaderRowView.col (h : HeaderRowView) : Col4 → String
  | .input => h.inputLabel
  | .target => h.targetLabel
  | .answer => h.answerLabel
  | .limit => h.limitLabel

/-- `sampleCount`: `items.reduce((prev, current) => current.type === "sample"
? prev + 1 : prev, 0)`. -/
def sampleCount (items : List ListItem) : Nat :=
  items.foldl (fun prev current => if current.type = "sample" then prev + 1 else prev) 0

/-- `errorCount`: `items.reduce((previous, item) => item.data.error ?
previous + 1 : previous, 0)`. -/
def errorCount (items : List ListItem) : Nat :=
  items.foldl (fun previous item => if item.data.errorTruthy then previous + 1 else previous) 0

/-- `limitCount`: `items.reduce((previous, item) => item.data.limit ?
previous + 1 : previous, 0)`. -/
def limitCount (items : List ListItem) : Nat :=
  items.foldl (fun previous item => if item.data.limitTruthy then previous + 1 else previous) 0

/-- `percentError = (errorCount / sampleCount) * 100`. -/
def percentError (items : List ListItem) : ℚ :=
  ((errorCount items : ℚ) / (sampleCount items : ℚ)) * 100

/-- `percentLimit = (limitCount / sampleCount) * 100`. -/
def percentLimit (items : List ListItem) : ℚ :=
  ((limitCount items : ℚ) / (sampleCount items : ℚ)) * 100

/-- Which of the two informational banner messages is shown. -/
inductive BannerKind where
  | error
  | limitExceeded
deriving DecidableEq

/-- The data interpolated into a `warningMessage` template string
(`INFO: ${count} of ${total} samples (${percent}%) …`); the surrounding
wording is fixed by the banner kind. -/
structure BannerInfo where
  kind : BannerKind
  count : Nat
  total : Nat
  percent : ℚ
deriving DecidableEq

/-- `warningMessage`: `errorCount > 0 ? … : limitCount ? … : undefined`
(a `Nat` is truthy exactly when it is non-zero). -/
def warningMessage (items : List ListItem) : Option BannerInfo :=
  if 0 < errorCount items then
    some { kind := .error, count := errorCount items, total := sampleCount items,
           percent := percentError items }
  else if limitCount items ≠ 0 then
    some { kind := .limitExceeded, count := limitCount items, total := sampleCount items,
           percent := percentLimit items }
  else
    none

/-- What `renderRow` produces for one item. -/
inductive RenderedRow where
  | sampleRow (id : Nat) (index : Nat) (data : ItemData) (height : Nat) (selected : Bool)
  | separatorRow (id : String) (title : ItemData) (height : Nat)
  | emptyString
deriving DecidableEq

/-- `renderRow`: a `"sample"` item becomes a `SampleRow` of height
`kSampleHeight`, a `"separator"` item a `SeparatorRow` of height
`kSeparatorHeight` with `item.data` as title, anything else the empty
string. -/
def renderRow (selectedIndex : Nat) (item : ListItem) : RenderedRow :=
  if item.type = "sample" then
    .sampleRow item.number item.index item.data kSampleHeight (decide (selectedIndex = item.index))
  else if item.type = "separator" then
    .separatorRow ("sample-group" ++ toString item.number) item.data kSeparatorHeight
  else
    .emptyString

/-- The result of `SampleList`: either the `EmptyPanel` empty state, or the
full structure (optional warning banner, header row, the `data` list handed
to `VirtualList`, and the footer's sample count). -/
inductive SampleListView where
  | emptyPanel (text : String)
  | full (warningRow : Option BannerInfo) (header : HeaderRowView)
      (listData : List ListItem) (footerCount : Nat)
deriving DecidableEq

/-- `SampleList`: `items.length === 0` short-circuits to the empty state;
otherwise the banner, header, virtual list over `items` and footer are
rendered. -/
def SampleList (items : List ListItem) (od : Option SamplesDescriptor) : SampleListView :=
  if items.length = 0 then
    .emptyPanel "No Samples"
  else
    .full (warningMessage items) (headerRow od) items (sampleCount items)

/-- The list handed to `VirtualList`, when the full structure is rendered. -/
def SampleListView.listData? : SampleListView → Option (List ListItem)
  | .emptyPanel _ => none
  | .full _ _ d _ => some d

/-- The footer's sample count, when the full structure is rendered. -/
def SampleListView.footerCount? : SampleListView → Option Nat
  | .emptyPanel _ => none
  | .full _ _ _ c => some c

/-- Content of the score cell of a `SampleRow`: either the `SampleError`
indicator or the descriptor's rendered score (`undefined` when the
descriptor is absent). -/
inductive ScoreCellView where
  | sampleError (message : Option String)
  | renderedScore (text : Option String)
deriving DecidableEq

/-- The data displayed in the six cells of a `SampleRow`. -/
structure SampleRowView where
  idCell : String
  inputCell : String
  targetCell : String
  answerCell : Option String
  limitCell : Option String
  scoreCell : ScoreCellView
deriving DecidableEq

/-- `SampleRow`: id, input, target, answer, limit and score cells; the score
cell shows `SampleError` when `sample.error` is truthy and the descriptor's
rendered score otherwise. -/
def SampleRow (sample : SampleSummary) (od : Option SamplesDescriptor) : SampleRowView :=
  { idCell := sample.id
    inputCell := inputString sample.input
    targetCell := arrayToString sample.target
    answerCell := od.map (fun d => d.scorerAnswer sample)
    limitCell := sample.limit
    scoreCell :=
      if jsTruthyStr sample.error then
        .sampleError sample.error
      else
        .renderedScore (od.map (fun d => d.selectedScoreRender sample)) }

/-- The selection callbacks a key press can invoke. -/
inductive KeyCallback where
  | prevSample
  | nextSample
  | showSample (index : Nat)
deriving DecidableEq

/-- The observable effect of the `onkeydown` handler on one event. -/
structure KeyEventResult where
  callback : Option KeyCallback
  defaultPrevented : Bool
  propagationStopped : Bool
deriving DecidableEq

/-- The `onkeydown` handler: `ArrowUp`, `ArrowDown` and `Enter` invoke their
callback and prevent/stop the event; every other key falls through the
switch untouched. -/
def onkeydown (selectedIndex : Nat) (key : String) : KeyEventResult :=
  if key = "ArrowUp" then
    { callback := some .prevSample, defaultPrevented := true, propagationStopped := true }
  else if key = "ArrowDown" then
    { callback := some .nextSample, defaultPrevented := true, propagationStopped := true }
  else if key = "Enter" then
    { callback := some (.showSample selectedIndex), defaultPrevented := true,
      propagationStopped := true }
  else
    { callback := none, defaultPrevented := false, propagationStopped := false }

/-- `itemRowMapping`: the indexes (in `items`) of the items of type
`"sample"`, in order, as built by the `forEach` push loop. -/
def itemRowMapping (items : List ListItem) : List Nat :=
  ((items.enum.filter fun p => decide (p.2.type = "sample")).map Prod.fst)

/-- A JS numeric slot that may also hold `null` (the initial value of
`prevSelectedIndexRef.current`) or `undefined` (an out-of-range lookup). -/
inductive JSNum where
  | null
  | undef
  | num (n : Nat)
deriving DecidableEq

/-- The JS `>` comparison used for the scroll direction:
`x > null` coerces `null` to `0`; any comparison against `undefined`
(on either side) is false via `NaN`. -/
def jsGt : Option Nat → JSNum → Bool
  | some x, .num y => decide (y < x)
  | some x, .null => decide (0 < x)
  | _, _ => false

/-- The arguments of the `scrollToIndex` call made by the selection effect. -/
structure ScrollCall where
  target : Option Nat
  direction : String
deriving DecidableEq

/-- The body of the `useEffect` on `selectedIndex` (with `listRef.current`
present): looks up `itemRowMapping[selectedIndex]`, picks `"down"` when it
exceeds the previously stored position and `"up"` otherwise, calls
`scrollToIndex`, and stores the looked-up position in
`prevSelectedIndexRef`. -/
def scrollEffect (items : List ListItem) (selectedIndex : Nat) (prev : JSNum) :
    ScrollCall × JSNum :=
  let actualRowIndex := (itemRowMapping items).get? selectedIndex
  let direction := if jsGt actualRowIndex prev then "down" else "up"
  (⟨actualRowIndex, direction⟩,
    match actualRowIndex with
    | some n => .num n
    | none => .undef)

/-- The position, in the items list, of the `k`-th entry of type `"sample"`
(counting only `"sample"` entries and skipping everything else). This is the
specification-side description of `itemRowMapping[k]`. -/
def nthSampleIndex : List ListItem → Nat → Option Nat
  | [], _ => none
  | it :: rest, k =>
    if it.type = "sample" then
      match k with
      | 0 => some 0
      | k + 1 => (nthSampleIndex rest k).map (· + 1)
    else
      (nthSampleIndex rest k).map (· + 1)

/-- A concrete sample summary used by the witness statements. -/
def witnessSummary1 : SampleSummary :=
  { id := "s1", input := "what is 2+2", target := "4", error := none, limit := none }

/-- A concrete sample summary with an error, used by the witness statements. -/
def witnessSummaryErr : SampleSummary :=
  { id := "s2", input := "q", target := "t", error := some "boom", limit := some "context" }

/-- A concrete sample item used by the witness statements. -/
def witnessItemSample : ListItem :=
  { type := "sample", number := 1, index := 0, data := .sample witnessSummary1 }

/-- A concrete separator item used by the witness statements. -/
def witnessItemSep : ListItem :=
  { type := "separator", number := 2, index := 0, data := .title "Group B" }

/-- A concrete item of an unknown type, used by the witness statements. -/
def witnessItemOther : ListItem :=
  { type := "mystery", number := 3, index := 0, data := .title "x" }

/-- A concrete items list (a separator followed by one sample). -/
def witnessItems1 : List ListItem :=
  [ { type := "separator", number := 0, index := 0, data := .title "Group A" },
    witnessItemSample ]

/-- A concrete items list with two samples, one of which has an error. -/
def witnessItemsErr : List ListItem :=
  [ witnessItemSample,
    { type := "sample", number := 2, index := 1, data := .sample witnessSummaryErr } ]

/-- A concrete descriptor used by the witness statements. -/
def witnessDescriptor : SamplesDescriptor :=
  { messageShape :=
      { normalized := { input := 2 / 5, target := 1 / 5, answer := 3 / 20, limit := 0 }
        raw := { id := 4, score := 6 } }
    selectedScoreRender := fun _ => "C"
    scorerAnswer := fun _ => "yes" }

/-- A second descriptor with the same `messageShape` as `witnessDescriptor`
but different scoring functions. -/
def witnessDescriptorB : SamplesDescriptor :=
  { messageShape := witnessDescriptor.messageShape
    selectedScoreRender := fun _ => "I"
    scorerAnswer := fun _ => "no" }

/-- A concrete descriptor whose normalized input (1/10) is positive but below
the 0.15 width floor. -/
def cexDescriptor : SamplesDescriptor :=
  { messageShape :=
      { normalized := { input := 1 / 10, target := 1 / 5, answer := 1, limit := 1 }
        raw := { id := 5, score := 5 } }
    selectedScoreRender := fun _ => "score"
    scorerAnswer := fun _ => "answer" }

/-- The banner produced for `witnessItemsErr`. -/
def witnessBanner : BannerInfo :=
  { kind := .error, count := 1, total := 2, percent := 50 }

/-- A non-zero width never prints as `"0"`: its string ends in `"fr"`. -/
theorem frSize_ne_zero (v : ℚ) (h : v ≠ 0) : frSize v ≠ "0" := by
  unfold frSize
  rw [if_neg h]
  intro hc
  have hlen := congrArg String.length hc
  rw [String.length_append] at hlen
  have h2 : ("fr" : String).length = 2 := rfl
  have h0 : ("0" : String).length = 1 := rfl
  omega

/-- `frSize` prints `"0"` exactly at width `0`. -/
theorem frSize_eq_zero_iff (v : ℚ) : frSize v = "0" ↔ v = 0 := by
  constructor
  · intro h
    by_contra hv
    exact frSize_ne_zero v hv h
  · intro h
    simp [frSize, h]

/-- Uniform description of the four proportional width bindings. -/
theorem gcCol_some (d : SamplesDescriptor) (c : Col4) :
    gcCol (some d) c =
      if 0 < d.messageShape.normalized.col c then
        max (3 / 20) (d.messageShape.normalized.col c)
      else 0 := by
  cases c <;> rfl

/-- The width strings of `gridColumns` are `frSize` of the numeric widths. -/
theorem gridColumns_col_eq (od : Option SamplesDescriptor) (c : Col4) :
    (gridColumns od).col c = frSize (gcCol od c) := by
  cases c <;> rfl

/-- The header labels test the width strings against `"0"`. -/
theorem headerRow_col_eq (od : Option SamplesDescriptor) (c : Col4) :
    (headerRow od).col c = (if (gridColumns od).col c ≠ "0" then c.label else "") := by
  cases c <;> rfl

/-- The sample-count fold, for an arbitrary accumulator. -/
theorem sampleCount_foldl (items : List ListItem) :
    ∀ n : Nat,
      items.foldl (fun prev current => if current.type = "sample" then prev + 1 else prev) n =
        n + items.countP (fun it => decide (it.type = "sample")) := by
  induction items with
  | nil =>
      intro n
      simp
  | cons it rest ih =>
      intro n
      by_cases h : it.type = "sample"
      · simp [List.countP_cons, h, ih]
        omega
      · simp [List.countP_cons, h, ih]

/-- `sampleCount` counts the items of type `"sample"`. -/
theorem sampleCount_eq_countP (items : List ListItem) :
    sampleCount items = items.countP (fun it => decide (it.type = "sample")) := by
  have h := sampleCount_foldl items 0
  simpa [sampleCount] using h

/-- `itemRowMapping`, generalized over the starting index of the
enumeration, looks up to `nthSampleIndex` shifted by that start. -/
theorem itemRowMapping_aux (items : List ListItem) :
    ∀ n k : Nat,
      (((List.enumFrom n items).filter fun p => decide (p.2.type = "sample")).map
          Prod.fst).get? k
        = (nthSampleIndex items k).map (· + n) := by
  induction items with
  | nil =>
      intro n k
      simp [nthSampleIndex]
  | cons it rest ih =>
      intro n k
      have hstep : List.enumFrom n (it :: rest) = (n, it) :: List.enumFrom (n + 1) rest := rfl
      rw [hstep, List.filter_cons]
      by_cases h : it.type = "sample"
      · simp only [h, decide_True, if_true, List.map_cons]
        cases k with
        | zero =>
            simp [nthSampleIndex, h]
        | succ k =>
            rw [List.get?_cons_succ, ih (n + 1) k]
            simp only [nthSampleIndex, if_pos h]
            cases nthSampleIndex rest k <;> simp
            omega
      · rw [if_neg (by simp [h])]
        rw [ih (n + 1) k]
        simp only [nthSampleIndex, if_neg h]
        cases nthSampleIndex rest k <;> simp
        omega

/-- `itemRowMapping[k]` is the position of the `k`-th `"sample"` entry. -/
theorem itemRowMapping_get? (items : List ListItem) (k : Nat) :
    (itemRowMapping items).get? k = nthSampleIndex items k := by
  have he : itemRowMapping items
      = (((List.enumFrom 0 items).filter fun p => decide (p.2.type = "sample")).map
          Prod.fst) := rfl
  rw [he, itemRowMapping_aux items 0 k]
  cases nthSampleIndex items k <;> simp

/-- Claim C1: when the selected index changes (a previously scrolled-to row
position having been recorded), the effect calls `scrollToIndex` with the
position, in the items list, of the `selectedIndex`-th entry of type
`"sample"` (separators skipped), with direction `"down"` when that position
is greater than the previously scrolled-to position and `"up"` otherwise,
and it records that position as the new previous position. -/
theorem scrollEffect_selected (items : List ListItem) (selectedIndex p pos : Nat)
    (hpos : nthSampleIndex items selectedIndex = some pos) :
    (scrollEffect items selectedIndex (.num p)).1.target = some pos ∧
    (scrollEffect items selectedIndex (.num p)).1.direction =
      (if p < pos then "down" else "up") ∧
    (scrollEffect items selectedIndex (.num p)).2 = .num pos := by
  have hmap : (itemRowMapping items).get? selectedIndex = some pos := by
    rw [itemRowMapping_get?, hpos]
  have hmap2 : (itemRowMapping items)[selectedIndex]? = some pos := by
    rw [← List.get?_eq_getElem?]
    exact hmap
  refine ⟨?_, ?_, ?_⟩ <;> simp [scrollEffect, hmap2, jsGt]

/-- Witness for C1: in a list `[separator, sample]`, selecting sample 0 with
previous position 5 scrolls to items-list position 1, upward. -/
theorem scrollEffect_selected_witness :
    (scrollEffect witnessItems1 0 (.num 5)).1.target = some 1 ∧
    (scrollEffect witnessItems1 0 (.num 5)).1.direction = (if 5 < 1 then "down" else "up") ∧
    (scrollEffect witnessItems1 0 (.num 5)).2 = .num 1 :=
  scrollEffect_selected witnessItems1 0 5 1 (by decide)

/-- Claim C2 (counterexample): with normalized input 1/10 and target 1/5,
both positive, the fr widths are 3/20 (the 0.15 floor) and 1/5, so the width
ratio 3/4 differs from the normalized ratio 1/2. -/
theorem gridColumns_ratio_cex :
    0 < cexDescriptor.messageShape.normalized.col Col4.input ∧
    0 < cexDescriptor.messageShape.normalized.col Col4.target ∧
    gcCol (some cexDescriptor) Col4.input / gcCol (some cexDescriptor) Col4.target ≠
      cexDescriptor.messageShape.normalized.col Col4.input /
        cexDescriptor.messageShape.normalized.col Col4.target := by
  refine ⟨by norm_num [cexDescriptor, NormalizedShape.col],
    by norm_num [cexDescriptor, NormalizedShape.col], ?_⟩
  norm_num [gcCol, gcInput, gcTarget, cexDescriptor, NormalizedShape.col, max_def]

/-- Claim C2 (amended): for any two of the input, target, answer and limit
columns whose supplied normalized values are at least 0.15 (the width
floor), the ratio of their fr widths equals the ratio of the corresponding
supplied normalized values. -/
theorem gridColumns_ratio (d : SamplesDescriptor) (c1 c2 : Col4)
    (h1 : 3 / 20 ≤ d.messageShape.normalized.col c1)
    (h2 : 3 / 20 ≤ d.messageShape.normalized.col c2) :
    gcCol (some d) c1 / gcCol (some d) c2 =
      d.messageShape.normalized.col c1 / d.messageShape.normalized.col c2 := by
  have e1 : gcCol (some d) c1 = d.messageShape.normalized.col c1 := by
    rw [gcCol_some, if_pos (lt_of_lt_of_le (by norm_num) h1)]
    exact max_eq_right h1
  have e2 : gcCol (some d) c2 = d.messageShape.normalized.col c2 := by
    rw [gcCol_some, if_pos (lt_of_lt_of_le (by norm_num) h2)]
    exact max_eq_right h2
  rw [e1, e2]

/-- Witness for C2 (amended): at normalized input 2/5 and target 1/5. -/
theorem gridColumns_ratio_witness :
    gcCol (some witnessDescriptor) Col4.input / gcCol (some witnessDescriptor) Col4.target =
      witnessDescriptor.messageShape.normalized.col Col4.input /
        witnessDescriptor.messageShape.normalized.col Col4.target :=
  gridColumns_ratio witnessDescriptor Col4.input Col4.target
    (by norm_num [witnessDescriptor, NormalizedShape.col])
    (by norm_num [witnessDescriptor, NormalizedShape.col])

/-- Claim C3: an empty items list yields exactly the `EmptyPanel` showing
"No Samples" (so no banner, header, virtual list or footer), and a
non-empty items list yields the full list structure. -/
theorem sampleList_empty_state (items : List ListItem) (od : Option SamplesDescriptor) :
    (items = [] → SampleList items od = .emptyPanel "No Samples") ∧
    (items ≠ [] →
      SampleList items od =
        .full (warningMessage items) (headerRow od) items (sampleCount items)) := by
  constructor
  · intro h
    subst h
    rfl
  · intro h
    have hlen : items.length ≠ 0 := by simpa using h
    simp [SampleList, hlen]

/-- Witness for C3: the empty list gives the empty panel and a concrete
non-empty list gives the full structure. -/
theorem sampleList_empty_state_witness :
    SampleList [] (some witnessDescriptor) = .emptyPanel "No Samples" ∧
    SampleList witnessItems1 none =
      .full (warningMessage witnessItems1) (headerRow none) witnessItems1
        (sampleCount witnessItems1) :=
  ⟨(sampleList_empty_state [] (some witnessDescriptor)).1 rfl,
   (sampleList_empty_state witnessItems1 none).2 (by decide)⟩

/-- Claim C4: the item's type alone determines its rendering — `"sample"`
becomes a `SampleRow` of height 88, `"separator"` a `SeparatorRow` of height
24 titled by the item's data, any other type the empty string — and the
virtual list receives exactly the items list in its given order. -/
theorem renderRow_by_type (selectedIndex : Nat) (item : ListItem) (items : List ListItem)
    (od : Option SamplesDescriptor) :
    (item.type = "sample" →
      renderRow selectedIndex item =
        .sampleRow item.number item.index item.data 88
          (decide (selectedIndex = item.index))) ∧
    (item.type = "separator" →
      renderRow selectedIndex item =
        .separatorRow ("sample-group" ++ toString item.number) item.data 24) ∧
    (item.type ≠ "sample" → item.type ≠ "separator" →
      renderRow selectedIndex item = .emptyString) ∧
    (items ≠ [] → (SampleList items od).listData? = some items) := by
  refine ⟨?_, ?_, ?_, ?_⟩
  · intro h
    simp [renderRow, h, kSampleHeight]
  · intro h
    have hne : item.type ≠ "sample" := by
      rw [h]
      decide
    simp [renderRow, h, hne, kSeparatorHeight]
  · intro h1 h2
    simp [renderRow, h1, h2]
  · intro h
    have hlen : items.length ≠ 0 := by simpa using h
    simp [SampleList, hlen, SampleListView.listData?]

/-- Witness for C4: one item of each type, rendered, and a concrete items
list handed unchanged to the virtual list. -/
theorem renderRow_by_type_witness :
    renderRow 0 witnessItemSample =
      .sampleRow 1 0 (.sample witnessSummary1) 88 (decide (0 = 0)) ∧
    renderRow 0 witnessItemSep =
      .separatorRow ("sample-group" ++ toString 2) (.title "Group B") 24 ∧
    renderRow 0 witnessItemOther = .emptyString ∧
    (SampleList witnessItems1 none).listData? = some witnessItems1 :=
  ⟨(renderRow_by_type 0 witnessItemSample witnessItems1 none).1 rfl,
   (renderRow_by_type 0 witnessItemSep witnessItems1 none).2.1 rfl,
   (renderRow_by_type 0 witnessItemOther witnessItems1 none).2.2.1 (by decide) (by decide),
   (renderRow_by_type 0 witnessItemSample witnessItems1 none).2.2.2 (by decide)⟩

/-- Claim C5: `ArrowUp` invokes `prevSample`, `ArrowDown` invokes
`nextSample`, `Enter` invokes `showSample` at the selected index — each
preventing the default action and stopping propagation — and any other key
invokes none of the selection callbacks. -/
theorem onkeydown_cases (selectedIndex : Nat) (key : String) :
    onkeydown selectedIndex "ArrowUp" =
      { callback := some .prevSample, defaultPrevented := true,
        propagationStopped := true } ∧
    onkeydown selectedIndex "ArrowDown" =
      { callback := some .nextSample, defaultPrevented := true,
        propagationStopped := true } ∧
    onkeydown selectedIndex "Enter" =
      { callback := some (.showSample selectedIndex), defaultPrevented := true,
        propagationStopped := true } ∧
    (key ≠ "ArrowUp" → key ≠ "ArrowDown" → key ≠ "Enter" →
      (onkeydown selectedIndex key).callback = none) := by
  refine ⟨rfl, rfl, rfl, ?_⟩
  intro h1 h2 h3
  simp [onkeydown, h1, h2, h3]

/-- Witness for C5: the key "Escape" invokes no selection callback. -/
theorem onkeydown_cases_witness :
    (onkeydown 4 "Escape").callback = none :=
  (onkeydown_cases 4 "Escape").2.2.2 (by decide) (by decide) (by decide)

/-- Claim C6: a sample row shows the summary's identifier, input text,
target text and limit indicator in their cells, and the score cell shows
the error indicator exactly when the error message is truthy, and otherwise
the descriptor's rendered score. -/
theorem sampleRow_cells (s : SampleSummary) (d : SamplesDescriptor) :
    (SampleRow s (some d)).idCell = s.id ∧
    (SampleRow s (some d)).inputCell = inputString s.input ∧
    (SampleRow s (some d)).targetCell = arrayToString s.target ∧
    (SampleRow s (some d)).limitCell = s.limit ∧
    ((SampleRow s (some d)).scoreCell = .sampleError s.error ↔
      jsTruthyStr s.error = true) ∧
    (jsTruthyStr s.error = false →
      (SampleRow s (some d)).scoreCell =
        .renderedScore (some (d.selectedScoreRender s))) := by
  by_cases h : jsTruthyStr s.error <;>
    simp [SampleRow, h]

/-- Witness for C6: a concrete sample without an error displays the
descriptor's rendered score. -/
theorem sampleRow_cells_witness :
    (SampleRow witnessSummary1 (some witnessDescriptor)).scoreCell =
      .renderedScore (some (witnessDescriptor.selectedScoreRender witnessSummary1)) :=
  (sampleRow_cells witnessSummary1 witnessDescriptor).2.2.2.2.2 (by decide)

/-- Claim C7: the layout computation uses the descriptor's fields as stated
and nothing else — the four proportional widths are a function of
`messageShape.normalized` alone, the id and score widths a function of
`messageShape.raw` alone, and the latter are rendered in rem units. (The
embedding of `gridColumns` is a pure function of the descriptor, which it
never modifies.) -/
theorem gridColumns_uses_fields (d1 d2 : SamplesDescriptor) :
    (d1.messageShape.normalized = d2.messageShape.normalized →
      (gridColumns (some d1)).input = (gridColumns (some d2)).input ∧
      (gridColumns (some d1)).target = (gridColumns (some d2)).target ∧
      (gridColumns (some d1)).answer = (gridColumns (some d2)).answer ∧
      (gridColumns (some d1)).limit = (gridColumns (some d2)).limit) ∧
    (d1.messageShape.raw = d2.messageShape.raw →
      (gridColumns (some d1)).id = (gridColumns (some d2)).id ∧
      (gridColumns (some d1)).score = (gridColumns (some d2)).score) ∧
    ((gridColumns (some d1)).id =
        toString (max 2 (min 10 d1.messageShape.raw.id)) ++ "rem" ∧
      (gridColumns (some d1)).score =
        toString (max 3 (min 10 d1.messageShape.raw.score)) ++ "rem") := by
  refine ⟨?_, ?_, rfl, rfl⟩
  · intro h
    refine ⟨?_, ?_, ?_, ?_⟩ <;>
      · simp only [gridColumns, gcInput, gcTarget, gcAnswer, gcLimit]
        rw [h]
  · intro h
    constructor <;>
      · simp only [gridColumns, gcId, gcScore, Option.map_some']
        rw [h]

/-- Witness for C7: two descriptors sharing the same `messageShape` but
different scoring functions produce the same column widths. -/
theorem gridColumns_uses_fields_witness :
    ((gridColumns (some witnessDescriptor)).input =
        (gridColumns (some witnessDescriptorB)).input ∧
      (gridColumns (some witnessDescriptor)).target =
        (gridColumns (some witnessDescriptorB)).target ∧
      (gridColumns (some witnessDescriptor)).answer =
        (gridColumns (some witnessDescriptorB)).answer ∧
      (gridColumns (some witnessDescriptor)).limit =
        (gridColumns (some witnessDescriptorB)).limit) ∧
    ((gridColumns (some witnessDescriptor)).id =
        (gridColumns (some witnessDescriptorB)).id ∧
      (gridColumns (some witnessDescriptor)).score =
        (gridColumns (some witnessDescriptorB)).score) :=
  ⟨(gridColumns_uses_fields witnessDescriptor witnessDescriptorB).1 rfl,
   (gridColumns_uses_fields witnessDescriptor witnessDescriptorB).2.1 rfl⟩

/-- Claim C8: at most one informational banner is shown and the error banner
takes precedence — a positive truthy-error count yields the error banner
reporting that count out of the sample count; otherwise a positive
truthy-limit count yields the limit banner; otherwise no banner. -/
theorem warningMessage_precedence (items : List ListItem) (_h : items ≠ []) :
    (0 < errorCount items →
      warningMessage items =
        some { kind := .error, count := errorCount items, total := sampleCount items,
               percent := percentError items }) ∧
    (errorCount items = 0 → 0 < limitCount items →
      warningMessage items =
        some { kind := .limitExceeded, count := limitCount items,
               total := sampleCount items, percent := percentLimit items }) ∧
    (errorCount items = 0 → limitCount items = 0 → warningMessage items = none) := by
  refine ⟨?_, ?_, ?_⟩
  · intro he
    simp [warningMessage, he]
  · intro he hl
    have hl2 : limitCount items ≠ 0 := Nat.pos_iff_ne_zero.mp hl
    simp [warningMessage, he, hl2]
  · intro he hl
    simp [warningMessage, he, hl]

/-- Witness for C8: a two-sample list with one error shows the error
banner. -/
theorem warningMessage_precedence_witness :
    warningMessage witnessItemsErr =
      some { kind := .error, count := errorCount witnessItemsErr,
             total := sampleCount witnessItemsErr,
             percent := percentError witnessItemsErr } :=
  (warningMessage_precedence witnessItemsErr (by decide)).1 (by decide)

/-- Claim C9: each proportional width is either exactly 0 — precisely when
no descriptor supplies a positive normalized value for it — or at least
0.15; with a descriptor present the id width is clamped to [2, 10] rem and
the score width to [3, 10] rem; and a proportional header label is blank
exactly when its width string is `"0"`. -/
theorem gridColumns_bounds (od : Option SamplesDescriptor) :
    (∀ c : Col4, gcCol od c = 0 ∨ 3 / 20 ≤ gcCol od c) ∧
    (∀ c : Col4,
      gcCol od c = 0 ↔ ¬ ∃ d, od = some d ∧ 0 < d.messageShape.normalized.col c) ∧
    (∀ d : SamplesDescriptor, od = some d →
      gcId od = some (max 2 (min 10 d.messageShape.raw.id)) ∧
      (2 : ℚ) ≤ max 2 (min 10 d.messageShape.raw.id) ∧
      max 2 (min 10 d.messageShape.raw.id) ≤ 10 ∧
      gcScore od = some (max 3 (min 10 d.messageShape.raw.score)) ∧
      (3 : ℚ) ≤ max 3 (min 10 d.messageShape.raw.score) ∧
      max 3 (min 10 d.messageShape.raw.score) ≤ 10) ∧
    (∀ c : Col4, (headerRow od).col c = "" ↔ (gridColumns od).col c = "0") := by
  refine ⟨?_, ?_, ?_, ?_⟩
  · intro c
    cases od with
    | none =>
        left
        cases c <;> rfl
    | some d =>
        rw [gcCol_some]
        by_cases h : 0 < d.messageShape.normalized.col c
        · right
          rw [if_pos h]
          exact le_max_left _ _
        · left
          rw [if_neg h]
  · intro c
    cases od with
    | none =>
        constructor
        · intro _ hex
          obtain ⟨d, hd, _⟩ := hex
          exact Option.noConfusion hd
        · intro _
          cases c <;> rfl
    | some d =>
        rw [gcCol_some]
        by_cases h : 0 < d.messageShape.normalized.col c
        · rw [if_pos h]
          constructor
          · intro h0
            have : (3 / 20 : ℚ) ≤ 0 := h0 ▸ le_max_left _ _
            norm_num at this
          · intro hex
            exact absurd ⟨d, rfl, h⟩ hex
        · rw [if_neg h]
          constructor
          · intro _ hex
            obtain ⟨d2, hd2, hpos⟩ := hex
            rw [Option.some.injEq] at hd2
            exact h (hd2 ▸ hpos)
          · intro _
            rfl
  · intro d hd
    subst hd
    refine ⟨rfl, le_max_left _ _, ?_, rfl, le_max_left _ _, ?_⟩
    · exact max_le (by norm_num) (min_le_left _ _)
    · exact max_le (by norm_num) (min_le_left _ _)
  · intro c
    rw [headerRow_col_eq]
    by_cases hw : (gridColumns od).col c = "0"
    · rw [if_neg (not_not_intro hw)]
      simp [hw]
    · rw [if_pos hw]
      have hf : ((gridColumns od).col c = "0") ↔ False := iff_false_intro hw
      rw [hf, iff_false]
      cases c <;> decide

/-- Witness for C9: the concrete descriptor's id and score widths are
clamped to their ranges. -/
theorem gridColumns_bounds_witness :
    gcId (some witnessDescriptor) =
      some (max 2 (min 10 witnessDescriptor.messageShape.raw.id)) ∧
    (2 : ℚ) ≤ max 2 (min 10 witnessDescriptor.messageShape.raw.id) ∧
    max 2 (min 10 witnessDescriptor.messageShape.raw.id) ≤ 10 ∧
    gcScore (some witnessDescriptor) =
      some (max 3 (min 10 witnessDescriptor.messageShape.raw.score)) ∧
    (3 : ℚ) ≤ max 3 (min 10 witnessDescriptor.messageShape.raw.score) ∧
    max 3 (min 10 witnessDescriptor.messageShape.raw.score) ≤ 10 :=
  (gridColumns_bounds (some witnessDescriptor)).2.2.1 witnessDescriptor rfl

/-- Claim C10: the footer's sample count is the number of items of type
`"sample"` (separators not counted), and that same count is the denominator
of the percentage carried by either banner. -/
theorem footer_sampleCount (items : List ListItem) (od : Option SamplesDescriptor)
    (h : items ≠ []) :
    (SampleList items od).footerCount? =
      some (items.countP fun it => decide (it.type = "sample")) ∧
    (∀ b : BannerInfo, warningMessage items = some b →
      b.total = sampleCount items ∧
      b.percent = (b.count : ℚ) / (sampleCount items : ℚ) * 100) := by
  constructor
  · have hlen : items.length ≠ 0 := by simpa using h
    simp [SampleList, hlen, SampleListView.footerCount?, sampleCount_eq_countP]
  · intro b hb
    unfold warningMessage at hb
    by_cases he : 0 < errorCount items
    · rw [if_pos he] at hb
      injection hb with hb
      subst hb
      exact ⟨rfl, rfl⟩
    · rw [if_neg he] at hb
      by_cases hl : limitCount items ≠ 0
      · rw [if_pos hl] at hb
        injection hb with hb
        subst hb
        exact ⟨rfl, rfl⟩
      · rw [if_neg hl] at hb
        exact Option.noConfusion hb

/-- Witness for C10: the two-sample list with one error has footer count 2
and a banner of 1 of 2 samples, i.e. 50 percent. -/
theorem footer_sampleCount_witness :
    (SampleList witnessItemsErr none).footerCount? =
      some (witnessItemsErr.countP fun it => decide (it.type = "sample")) ∧
    (witnessBanner.total = sampleCount witnessItemsErr ∧
      witnessBanner.percent =
        (witnessBanner.count : ℚ) / (sampleCount witnessItemsErr : ℚ) * 100) :=
  ⟨(footer_sampleCount witnessItemsErr none (by decide)).1,
   (footer_sampleCount witnessItemsErr none (by decide)).2 witnessBanner (by
     have he : errorCount witnessItemsErr = 1 := by decide
     have hs : sampleCount witnessItemsErr = 2 := by decide
     simp only [warningMessage, he, hs, percentError, witnessBanner]
     norm_num)⟩

end SampleListSpec
